import Mathlib

/-!
Verification of the notifications-bot core against its specification.

The Go source is shallowly embedded: pure functions become Lean functions,
stateful storage access becomes explicit state passing on a `Storage` value,
external collaborators (crypto verification, the push provider, the gateway
poll) become explicit oracle parameters, and fallible Go functions return
`Except` / `Option`. Times are nanosecond Unix timestamps as `Int`, matching
`time.Unix(0, ns)` in the source.
-/

namespace NotifBot

/-- One device registration row (`storage.User`): primary key `id` (the key
fingerprint of the transmission RSA key) and the device push token. -/
structure User where
  id : String
  token : String
  deriving Repr, DecidableEq

/-- A tracked intermediary identity row, scoped to an epoch offset with the
address-space size in effect at creation. -/
structure TrackedIdentity where
  iid : String
  owner : String
  epoch : Int
  addressSpaceSize : Nat
  deriving Repr, DecidableEq

/-- One published generation of a derived ephemeral identity: the derived
value, the epoch offset, and the expiry instant fixed at creation time. -/
structure EphemeralRecord where
  ephId : Int
  owner : String
  epoch : Int
  expiry : Int
  deriving Repr, DecidableEq

/-- The durable state shared by registration, the epoch manager and dispatch. -/
structure Storage where
  users : List User
  trackedIds : List TrackedIdentity
  ephemerals : List EphemeralRecord
  deriving Repr, DecidableEq

/-! ### databaseImpl.go : GetUser, DeleteUser, UpsertUser -/

/-- `DatabaseImpl.GetUser`: keyed read of a User by primary key; `none` models
the `pg.Select` error when no row exists. -/
def getUser (db : List User) (userId : String) : Option User :=
  db.find? (fun v => v.id == userId)

/-- `DatabaseImpl.DeleteUser`: delete the User row with the given primary key. -/
def deleteUser (db : List User) (userId : String) : List User :=
  db.filter (fun v => !(v.id == userId))

/-- `DatabaseImpl.UpsertUser`: `INSERT ... ON CONFLICT (Id) DO UPDATE SET
Token = EXCLUDED.Token` — update the row holding this primary key if one
exists (the primary key makes it unique), otherwise insert a new row. -/
def upsertUser : List User → User → List User
  | [], u => [u]
  | v :: rest, u =>
    if v.id == u.id then { v with token := u.token } :: rest
    else v :: upsertUser rest u

/-! ### Registration handlers (RegisterToken / RegisterTrackedID /
UnregisterToken / UnregisterTrackedID)

External cryptography and network state are oracles in `CryptoEnv`:
`permHostKey` is `Comms.GetHost(&id.Permissioning)`, `verifyWithTimestamp` is
`registration.VerifyWithTimestamp`, `unmarshalPem` is
`rsa.GetScheme().UnmarshalPublicKeyPEM`, `verifyToken` / `verifyIdentity` are
`notifications.VerifyToken` / `notifications.VerifyIdentity`, `fingerprint`
derives the User primary key from the transmission RSA, `quantize` is
`ephemeral.HandleQuantization` and `addressSpaceSize` the NDF value. -/
structure CryptoEnv where
  permHostKey : Option String
  verifyWithTimestamp : String → Int → String → String → Bool
  unmarshalPem : String → Option String
  verifyToken : String → String → String → Int → String → String → Bool
  verifyIdentity : String → String → Int → String → String → Bool
  fingerprint : String → String
  quantize : Int → Int
  addressSpaceSize : Nat
  epochDuration : Int
  deriveEph : String → Int → Nat → Int

/-- The typed failure a handler returns, one constructor per `return errors...`
site in the source. -/
inductive HandlerError where
  | staleRequest
  | noPermHost
  | permSigFail
  | pemUnmarshalFail
  | tokenSigFail
  | identitySigFail
  deriving Repr, DecidableEq

/-- `UntrustedKey`-kind failures: the permissioning authority is unknown or
the registrar signature does not verify. -/
def isUntrustedKeyKind : HandlerError → Bool
  | .noPermHost => true
  | .permSigFail => true
  | _ => false

/-- `BadSignature`-kind failures: the claimed PEM key cannot be unmarshalled
or the caller's own signature does not verify under it. -/
def isBadSignatureKind : HandlerError → Bool
  | .pemUnmarshalFail => true
  | .tokenSigFail => true
  | .identitySigFail => true
  | _ => false

/-- `time.Second * 5` in nanoseconds. -/
def fiveSecondsNs : Int := 5000000000

def registerTokenTag : String := "register-token"
def unregisterTokenTag : String := "unregister-token"
def registerTrackedIDTag : String := "register-tracked-id"
def unregisterTrackedIDTag : String := "unregister-tracked-id"

/-- `pb.RegisterTokenRequest`. -/
structure RegisterTokenRequest where
  token : String
  app : String
  transmissionRsaPem : String
  tokenSignature : String
  requestTimestamp : Int
  registrationTimestamp : Int
  transmissionRsaRegistrarSig : String

/-- `pb.RegisterTrackedIdRequest` (its inner `Request` flattened). -/
structure RegisterTrackedIdRequest where
  trackedIntermediaryID : String
  transmissionRsaPem : String
  signature : String
  requestTimestamp : Int
  registrationTimestamp : Int
  transmissionRsaRegistrarSig : String

/-- `pb.UnregisterTokenRequest`. -/
structure UnregisterTokenRequest where
  token : String
  app : String
  transmissionRsaPem : String
  tokenSignature : String
  requestTimestamp : Int

/-- `pb.TrackedIntermediaryIdRequest`. -/
structure TrackedIntermediaryIdRequest where
  trackedIntermediaryID : String
  transmissionRsaPem : String
  signature : String
  requestTimestamp : Int

/-- Modelled from the spec: `Storage.RegisterToken` is not under src/ (only
its caller is); per spec §4.1 step (4) it "upserts the User keyed by the key
fingerprint", replacing the token on re-registration. -/
def storageRegisterToken (env : CryptoEnv) (s : Storage) (token _app pem : String) :
    Storage :=
  { s with users := upsertUser s.users ⟨env.fingerprint pem, token⟩ }

/-- Modelled from the spec: `Storage.RegisterTrackedID` is not under src/;
per spec §4.1 it "inserts a TrackedIdentity at the current offset/epoch with
the address-space size currently in effect, and immediately triggers
epoch-record creation for it" — the new ephemeral record carries the derived
identity, the same offset, and expiry fixed at creation time + epoch duration. -/
def storageRegisterTrackedID (env : CryptoEnv) (now : Int) (s : Storage)
    (iid pem : String) (epoch : Int) (size : Nat) : Storage :=
  let t : TrackedIdentity := ⟨iid, env.fingerprint pem, epoch, size⟩
  let e : EphemeralRecord :=
    ⟨env.deriveEph iid epoch size, env.fingerprint pem, epoch, now + env.epochDuration⟩
  { s with trackedIds := t :: s.trackedIds, ephemerals := e :: s.ephemerals }

/-- Modelled from the spec: `Storage.UnregisterToken` is not under src/; per
spec §4.1 it deletes the token registration for that key, succeeding silently
when the target does not exist (idempotent delete). -/
def storageUnregisterToken (env : CryptoEnv) (s : Storage) (token pem : String) :
    Storage :=
  { s with users :=
      s.users.filter (fun u => !(u.id == env.fingerprint pem && u.token == token)) }

/-- Modelled from the spec: `Storage.UnregisterTrackedIDs` is not under src/;
per spec §4.1 it removes the tracked identity (and, per §3, its epoch records),
succeeding silently when the target does not exist (idempotent delete). -/
def storageUnregisterTrackedIDs (env : CryptoEnv) (s : Storage) (iid pem : String) :
    Storage :=
  { s with trackedIds :=
      s.trackedIds.filter (fun t => !(t.iid == iid && t.owner == env.fingerprint pem)) }

/-- `Impl.RegisterToken`: freshness check, registrar-signature check against
the permissioning host key, PEM unmarshal, token-signature check, then the
storage upsert. An error result leaves `Storage` untouched — the storage call
is the final step, reached only when every check passed. -/
def registerToken (env : CryptoEnv) (now : Int) (msg : RegisterTokenRequest)
    (s : Storage) : Except HandlerError Storage :=
  if now - msg.requestTimestamp > fiveSecondsNs then .error .staleRequest
  else
    match env.permHostKey with
    | none => .error .noPermHost
    | some pk =>
      if ¬ env.verifyWithTimestamp pk msg.registrationTimestamp
          msg.transmissionRsaPem msg.transmissionRsaRegistrarSig then
        .error .permSigFail
      else
        match env.unmarshalPem msg.transmissionRsaPem with
        | none => .error .pemUnmarshalFail
        | some pub =>
          if ¬ env.verifyToken pub msg.token msg.app msg.requestTimestamp
              registerTokenTag msg.tokenSignature then
            .error .tokenSigFail
          else
            .ok (storageRegisterToken env s msg.token msg.app msg.transmissionRsaPem)

/-- `Impl.RegisterTrackedID`: freshness, registrar signature, PEM unmarshal,
identity signature, then the storage insert at the epoch quantized from the
current wall clock with the NDF address-space size. -/
def registerTrackedID (env : CryptoEnv) (now : Int) (msg : RegisterTrackedIdRequest)
    (s : Storage) : Except HandlerError Storage :=
  if now - msg.requestTimestamp > fiveSecondsNs then .error .staleRequest
  else
    match env.permHostKey with
    | none => .error .noPermHost
    | some pk =>
      if ¬ env.verifyWithTimestamp pk msg.registrationTimestamp
          msg.transmissionRsaPem msg.transmissionRsaRegistrarSig then
        .error .permSigFail
      else
        match env.unmarshalPem msg.transmissionRsaPem with
        | none => .error .pemUnmarshalFail
        | some pub =>
          if ¬ env.verifyIdentity pub msg.trackedIntermediaryID msg.requestTimestamp
              registerTrackedIDTag msg.signature then
            .error .identitySigFail
          else
            .ok (storageRegisterTrackedID env now s msg.trackedIntermediaryID
              msg.transmissionRsaPem (env.quantize now) env.addressSpaceSize)

/-- `Impl.UnregisterToken`: freshness, PEM unmarshal, the caller's own token
signature (no registrar re-verification), then the storage delete. -/
def unregisterToken (env : CryptoEnv) (now : Int) (msg : UnregisterTokenRequest)
    (s : Storage) : Except HandlerError Storage :=
  if now - msg.requestTimestamp > fiveSecondsNs then .error .staleRequest
  else
    match env.unmarshalPem msg.transmissionRsaPem with
    | none => .error .pemUnmarshalFail
    | some pub =>
      if ¬ env.verifyToken pub msg.token msg.app msg.requestTimestamp
          unregisterTokenTag msg.tokenSignature then
        .error .tokenSigFail
      else
        .ok (storageUnregisterToken env s msg.token msg.transmissionRsaPem)

/-- `Impl.UnregisterTrackedID`: freshness, PEM unmarshal, the caller's own
identity signature, then the storage delete. -/
def unregisterTrackedID (env : CryptoEnv) (now : Int)
    (msg : TrackedIntermediaryIdRequest) (s : Storage) :
    Except HandlerError Storage :=
  if now - msg.requestTimestamp > fiveSecondsNs then .error .staleRequest
  else
    match env.unmarshalPem msg.transmissionRsaPem with
    | none => .error .pemUnmarshalFail
    | some pub =>
      if ¬ env.verifyIdentity pub msg.trackedIntermediaryID msg.requestTimestamp
          unregisterTrackedIDTag msg.signature then
        .error .identitySigFail
      else
        .ok (storageUnregisterTrackedIDs env s msg.trackedIntermediaryID
          msg.transmissionRsaPem)

/-! ### Dispatch loop (notifications.go : notifyUser, RunNotificationLoop) -/

/-- `strings.Contains` on character lists: `needle` occurs contiguously. -/
def hasSubList (needle : List Char) : List Char → Bool
  | [] => needle.isEmpty
  | c :: rest => needle.isPrefixOf (c :: rest) || hasSubList needle rest

/-- `strings.Contains(hay, needle)`. -/
def strContains (hay needle : String) : Bool :=
  hasSubList needle.toList hay.toList

/-- The provider-error classification used by `notifyUser`: the stored token
is treated as invalid exactly when the firebase error message contains
"403" or "404". -/
def isInvalidTokenErr (m : String) : Bool :=
  strContains m "403" || strContains m "404"

/-- `errors.Wrapf(err, msg, ...)` produces "msg: err". -/
def wrapMsg (cause msg : String) : String := msg ++ ": " ++ cause

/-- The `(resp, err)` pair returned by `FirebaseComm.SendNotification`. -/
structure SendResult where
  resp : String
  err : Option String
  deriving Repr, DecidableEq

/-- The `(string, error)` pair returned by `notifyUser`, together with the
storage (user table) state after the call. -/
structure NotifyOut where
  resp : String
  error : Option String
  db : List User
  deriving Repr, DecidableEq

/-- `notifyUser`: resolve the User by id (a missing registration is not an
error and leaves everything untouched); send through the provider; on a
403/404 provider error delete the User (propagating only a failure of the
delete itself); on any other provider error return it wrapped. `send` is the
push-provider oracle and `deleteErr` the outcome of `db.DeleteUser`. -/
def notifyUser (send : String → SendResult) (deleteErr : Option String)
    (db : List User) (uid : String) : NotifyOut :=
  match getUser db uid with
  | none => ⟨"", none, db⟩
  | some u =>
    let r := send u.token
    match r.err with
    | none => ⟨r.resp, none, db⟩
    | some m =>
      if strContains m "403" || strContains m "404" then
        match deleteErr with
        | some e =>
          ⟨"", some (wrapMsg e ("Failed to remove user registration for uid: " ++ uid)), db⟩
        | none => ⟨r.resp, none, deleteUser db uid⟩
      else
        ⟨"", some (wrapMsg m ("Failed to send notification to user with ID " ++ uid)), db⟩

/-- One gateway poll outcome (`pollFunc`): a batch of identities or an error. -/
inductive PollResult where
  | ok (uids : List String)
  | err (msg : String)

/-- The observable inputs to one iteration of `RunNotificationLoop`: whether
the kill channel has fired by the top of the iteration, and the poll outcome. -/
structure LoopInput where
  kill : Bool
  poll : PollResult

/-- How a run of the loop ended. `traceEnded` marks exhaustion of the modelled
input trace (the Go loop would keep iterating). -/
inductive LoopExit where
  | killed
  | pollFailed
  | notifyFailed
  | traceEnded
  deriving Repr, DecidableEq

/-- Result of running the loop over an input trace: how it exited, what (if
anything) was sent on the error channel, and the final user table. -/
structure LoopResult where
  exitKind : LoopExit
  errSent : Option String
  db : List User
  deriving Repr, DecidableEq

/-- The inner `for _, id := range UIDs` body of `RunNotificationLoop`: notify
each identity in turn; the first notify error is wrapped and stops the batch. -/
def notifyBatch (send : String → SendResult) (delErr : String → Option String) :
    List User → List String → Option String × List User
  | db, [] => (none, db)
  | db, uid :: rest =>
    let r := notifyUser send (delErr uid) db uid
    match r.error with
    | some e => (some (wrapMsg e ("Failed to notify user with ID " ++ uid)), r.db)
    | none => notifyBatch send delErr r.db rest

/-- `RunNotificationLoop`: every iteration first observes the kill channel and
returns if it fired; then polls the gateway — a poll failure is sent on the
error channel and ends the loop; then notifies the polled batch — a notify
failure likewise is sent on the error channel and ends the loop. -/
def runLoop (send : String → SendResult) (delErr : String → Option String) :
    List LoopInput → List User → LoopResult
  | [], db => ⟨.traceEnded, none, db⟩
  | inp :: rest, db =>
    if inp.kill then ⟨.killed, none, db⟩
    else
      match inp.poll with
      | .err m =>
        ⟨.pollFailed, some (wrapMsg m "Failed to poll gateway for users to notify"), db⟩
      | .ok uids =>
        match notifyBatch send delErr db uids with
        | (some e, db2) => ⟨.notifyFailed, some e, db2⟩
        | (none, db2) => runLoop send delErr rest db2

/-! ### Epoch Manager deleter pass -/

/-- Modelled from the spec: the deleter pass keeps a record exactly when its
stored expiry (fixed at creation) has not yet passed; nothing is re-derived
from epoch arithmetic at deletion time. -/
def keepsRecord (now : Int) (e : EphemeralRecord) : Bool :=
  decide (¬ e.expiry < now)

/-- Modelled from the spec: the Epoch Manager's deleter pass (`initDeleter`
body, not under src/) — "for every EphemeralEpochRecord whose expiry time has
passed, delete it", leaving every other record in place. -/
def deleterPass (now : Int) (s : Storage) : Storage :=
  { s with ephemerals := s.ephemerals.filter (keepsRecord now) }

/-! ### Concrete sample inputs used by witnesses -/

/-- A concrete oracle environment in which every verification succeeds, the
fingerprint is the PEM itself and the public key unmarshals to itself. -/
def sampleEnv : CryptoEnv :=
  ⟨some "pk", fun _ _ _ _ => true, fun p => some p, fun _ _ _ _ _ _ => true,
   fun _ _ _ _ _ => true, fun p => p, fun t => t / 3600, 16, 3600, fun _ ep _ => ep⟩

def emptyStorage : Storage := ⟨[], [], []⟩

def sampleRegTok : RegisterTokenRequest := ⟨"tok", "app", "pem", "sig", 0, 0, "rsig"⟩

def sampleRegTid : RegisterTrackedIdRequest := ⟨"iid", "pem", "sig", 0, 0, "rsig"⟩

def sampleUnregTok : UnregisterTokenRequest := ⟨"tok", "app", "pem", "sig", 0⟩

def sampleUnregTid : TrackedIntermediaryIdRequest := ⟨"iid", "pem", "sig", 0⟩

/-! ### Helper lemmas -/

/-- A fully validated `RegisterToken` request reaches the storage upsert. -/
lemma registerToken_ok_of_valid (env : CryptoEnv) (now : Int)
    (msg : RegisterTokenRequest) (s : Storage) (pk pub : String)
    (hfresh : ¬ now - msg.requestTimestamp > fiveSecondsNs)
    (hpk : env.permHostKey = some pk)
    (hv : env.verifyWithTimestamp pk msg.registrationTimestamp
      msg.transmissionRsaPem msg.transmissionRsaRegistrarSig = true)
    (hpub : env.unmarshalPem msg.transmissionRsaPem = some pub)
    (ht : env.verifyToken pub msg.token msg.app msg.requestTimestamp
      registerTokenTag msg.tokenSignature = true) :
    registerToken env now msg s =
      .ok { s with users := upsertUser s.users ⟨env.fingerprint msg.transmissionRsaPem, msg.token⟩ } := by
  simp [registerToken, hfresh, hpk, hv, hpub, ht, storageRegisterToken]

/-- Reading back the key just upserted yields exactly the upserted token. -/
lemma getUser_upsertUser_self (db : List User) (u : User) :
    getUser (upsertUser db u) u.id = some ⟨u.id, u.token⟩ := by
  induction db with
  | nil => simp [upsertUser, getUser]
  | cons v rest ih =>
    by_cases h : v.id = u.id
    · simp [upsertUser, getUser, h]
    · have hb : (v.id == u.id) = false := by simpa using h
      simp only [upsertUser, getUser] at ih ⊢
      rw [if_neg (by simp [hb]), List.find?_cons_of_neg _ (by simp [hb])]
      exact ih

/-- When a key holds at most one row, upserting it leaves exactly one row for
that key, holding the new token. -/
lemma filter_upsertUser (db : List User) (k t : String)
    (h : (db.filter (fun v => v.id == k)).length ≤ 1) :
    (upsertUser db ⟨k, t⟩).filter (fun v => v.id == k) = [⟨k, t⟩] := by
  induction db with
  | nil => simp [upsertUser]
  | cons v rest ih =>
    by_cases hv : v.id = k
    · have hb : (v.id == k) = true := by simpa using hv
      have hrest : rest.filter (fun v => v.id == k) = [] := by
        simpa [List.filter_cons, hb] using h
      simp [upsertUser, hv, hb, List.filter_cons, hrest]
    · have hb : (v.id == k) = false := by simpa using hv
      have hrest : (rest.filter (fun v => v.id == k)).length ≤ 1 := by
        simpa [List.filter_cons, hb] using h
      simp [upsertUser, hv, hb, List.filter_cons, ih hrest]

/-- Deleting the same token association twice is the same as deleting it once. -/
lemma storageUnregisterToken_idem (env : CryptoEnv) (s : Storage) (tok pem : String) :
    storageUnregisterToken env (storageUnregisterToken env s tok pem) tok pem =
      storageUnregisterToken env s tok pem := by
  simp [storageUnregisterToken, List.filter_filter]

/-- Deleting the same tracked identity twice is the same as deleting it once. -/
lemma storageUnregisterTrackedIDs_idem (env : CryptoEnv) (s : Storage) (iid pem : String) :
    storageUnregisterTrackedIDs env (storageUnregisterTrackedIDs env s iid pem) iid pem =
      storageUnregisterTrackedIDs env s iid pem := by
  simp [storageUnregisterTrackedIDs, List.filter_filter]

/-! ### Claim theorems -/

/-- C1: every one of the four signed operations whose request timestamp is
more than 5 seconds in the past fails with the StaleRequest error, whatever
the signatures are (the environment, and so every signature oracle, is
arbitrary); the error return means the storage call at the end of each
handler is never reached, so no storage mutation is performed. -/
theorem stale_requests_rejected (env : CryptoEnv) (now : Int) (s : Storage)
    (m1 : RegisterTokenRequest) (m2 : RegisterTrackedIdRequest)
    (m3 : UnregisterTokenRequest) (m4 : TrackedIntermediaryIdRequest)
    (h1 : now - m1.requestTimestamp > fiveSecondsNs)
    (h2 : now - m2.requestTimestamp > fiveSecondsNs)
    (h3 : now - m3.requestTimestamp > fiveSecondsNs)
    (h4 : now - m4.requestTimestamp > fiveSecondsNs) :
    registerToken env now m1 s = .error .staleRequest ∧
    registerTrackedID env now m2 s = .error .staleRequest ∧
    unregisterToken env now m3 s = .error .staleRequest ∧
    unregisterTrackedID env now m4 s = .error .staleRequest := by
  refine ⟨?_, ?_, ?_, ?_⟩ <;>
    simp [registerToken, registerTrackedID, unregisterToken, unregisterTrackedID,
      h1, h2, h3, h4]

/-- Witness for C1 at a concrete stale input (request timestamp 0, current
time 10 seconds later). -/
theorem stale_requests_rejected_witness :
    registerToken sampleEnv 10000000000 sampleRegTok emptyStorage = .error .staleRequest ∧
    registerTrackedID sampleEnv 10000000000 sampleRegTid emptyStorage = .error .staleRequest ∧
    unregisterToken sampleEnv 10000000000 sampleUnregTok emptyStorage = .error .staleRequest ∧
    unregisterTrackedID sampleEnv 10000000000 sampleUnregTid emptyStorage = .error .staleRequest :=
  stale_requests_rejected sampleEnv 10000000000 emptyStorage
    sampleRegTok sampleRegTid sampleUnregTok sampleUnregTid
    (by decide) (by decide) (by decide) (by decide)

/-- C2: for a fresh RegisterToken request, the checks run in order — a missing
permissioning authority or a failed registrar signature yields an
UntrustedKey-kind error; past that, a key that does not unmarshal or a failed
token signature yields a BadSignature-kind error; past both, the handler
upserts the User keyed by the key fingerprint and succeeds. Error results
leave the storage untouched by construction. -/
theorem registerToken_auth_chain (env : CryptoEnv) (now : Int)
    (msg : RegisterTokenRequest) (s : Storage)
    (hfresh : ¬ now - msg.requestTimestamp > fiveSecondsNs) :
    ((env.permHostKey = none ∨
        ∃ pk, env.permHostKey = some pk ∧
          env.verifyWithTimestamp pk msg.registrationTimestamp
            msg.transmissionRsaPem msg.transmissionRsaRegistrarSig = false) →
      ∃ e, registerToken env now msg s = .error e ∧ isUntrustedKeyKind e = true) ∧
    (∀ pk, env.permHostKey = some pk →
      env.verifyWithTimestamp pk msg.registrationTimestamp
        msg.transmissionRsaPem msg.transmissionRsaRegistrarSig = true →
      (env.unmarshalPem msg.transmissionRsaPem = none ∨
        ∃ pub, env.unmarshalPem msg.transmissionRsaPem = some pub ∧
          env.verifyToken pub msg.token msg.app msg.requestTimestamp
            registerTokenTag msg.tokenSignature = false) →
      ∃ e, registerToken env now msg s = .error e ∧ isBadSignatureKind e = true) ∧
    (∀ pk pub, env.permHostKey = some pk →
      env.verifyWithTimestamp pk msg.registrationTimestamp
        msg.transmissionRsaPem msg.transmissionRsaRegistrarSig = true →
      env.unmarshalPem msg.transmissionRsaPem = some pub →
      env.verifyToken pub msg.token msg.app msg.requestTimestamp
        registerTokenTag msg.tokenSignature = true →
      registerToken env now msg s =
        .ok { s with users := upsertUser s.users ⟨env.fingerprint msg.transmissionRsaPem, msg.token⟩ }) := by
  refine ⟨?_, ?_, ?_⟩
  · rintro (hp | ⟨pk, hpk, hvf⟩)
    · exact ⟨.noPermHost, by simp [registerToken, hfresh, hp], rfl⟩
    · exact ⟨.permSigFail, by simp [registerToken, hfresh, hpk, hvf], rfl⟩
  · rintro pk hpk hv (hup | ⟨pub, hpub, htf⟩)
    · exact ⟨.pemUnmarshalFail, by simp [registerToken, hfresh, hpk, hv, hup], rfl⟩
    · exact ⟨.tokenSigFail, by simp [registerToken, hfresh, hpk, hv, hpub, htf], rfl⟩
  · intro pk pub hpk hv hpub ht
    exact registerToken_ok_of_valid env now msg s pk pub hfresh hpk hv hpub ht

/-- Witness for C2: in the all-valid concrete environment the fresh request
reaches the storage upsert. -/
theorem registerToken_auth_chain_witness :
    registerToken sampleEnv 0 sampleRegTok emptyStorage =
      .ok { emptyStorage with users := upsertUser emptyStorage.users ⟨sampleEnv.fingerprint sampleRegTok.transmissionRsaPem, sampleRegTok.token⟩ } :=
  (registerToken_auth_chain sampleEnv 0 sampleRegTok emptyStorage (by decide)).2.2
    "pk" "pem" rfl rfl rfl rfl

/-- C3: a valid RegisterToken followed by GetUser on the registered key
returns a User holding the registered token; and two successive token
upserts for the same key (tokA then tokB) leave exactly one row for that key,
holding tokB — given the primary-key invariant that the key held at most one
row to begin with. -/
theorem register_roundtrip_last_write_wins (env : CryptoEnv) (now : Int)
    (msg : RegisterTokenRequest) (s : Storage) (pk pub : String)
    (db : List User) (k tokA tokB : String)
    (hfresh : ¬ now - msg.requestTimestamp > fiveSecondsNs)
    (hpk : env.permHostKey = some pk)
    (hv : env.verifyWithTimestamp pk msg.registrationTimestamp
      msg.transmissionRsaPem msg.transmissionRsaRegistrarSig = true)
    (hpub : env.unmarshalPem msg.transmissionRsaPem = some pub)
    (ht : env.verifyToken pub msg.token msg.app msg.requestTimestamp
      registerTokenTag msg.tokenSignature = true)
    (huniq : (db.filter (fun v => v.id == k)).length ≤ 1) :
    (∃ s2, registerToken env now msg s = .ok s2 ∧
      getUser s2.users (env.fingerprint msg.transmissionRsaPem) =
        some ⟨env.fingerprint msg.transmissionRsaPem, msg.token⟩) ∧
    (upsertUser (upsertUser db ⟨k, tokA⟩) ⟨k, tokB⟩).filter (fun v => v.id == k) = [⟨k, tokB⟩] ∧
    getUser (upsertUser (upsertUser db ⟨k, tokA⟩) ⟨k, tokB⟩) k = some ⟨k, tokB⟩ := by
  have hone : ((upsertUser db ⟨k, tokA⟩).filter (fun v => v.id == k)).length ≤ 1 := by
    rw [filter_upsertUser db k tokA huniq]
    simp
  refine ⟨?_, filter_upsertUser _ k tokB hone, ?_⟩
  · refine ⟨_, registerToken_ok_of_valid env now msg s pk pub hfresh hpk hv hpub ht, ?_⟩
    exact getUser_upsertUser_self s.users ⟨env.fingerprint msg.transmissionRsaPem, msg.token⟩
  · exact getUser_upsertUser_self _ ⟨k, tokB⟩

/-- Witness for C3 at concrete inputs: register "tok" for key "pem" in empty
storage, read it back; upsert "tokA" then "tokB" for key "K" in an empty
table. -/
theorem register_roundtrip_last_write_wins_witness :
    (∃ s2, registerToken sampleEnv 0 sampleRegTok emptyStorage = .ok s2 ∧
      getUser s2.users (sampleEnv.fingerprint sampleRegTok.transmissionRsaPem) =
        some ⟨sampleEnv.fingerprint sampleRegTok.transmissionRsaPem, sampleRegTok.token⟩) ∧
    (upsertUser (upsertUser [] ⟨"K", "tokA"⟩) ⟨"K", "tokB"⟩).filter (fun v => v.id == "K") = [⟨"K", "tokB"⟩] ∧
    getUser (upsertUser (upsertUser [] ⟨"K", "tokA"⟩) ⟨"K", "tokB"⟩) "K" = some ⟨"K", "tokB"⟩ :=
  register_roundtrip_last_write_wins sampleEnv 0 sampleRegTok emptyStorage
    "pk" "pem" [] "K" "tokA" "tokB" (by decide) rfl rfl rfl rfl (by decide)

/-- C4: when the provider reports the resolved User's token as
invalid/not-found (a 403/404 error) and the delete succeeds, notifyUser
deletes the User and returns success, and the batch continues with the next
identity over the shrunk table; any other provider error is wrapped and
returned, which stops the batch at that identity and is sent on the owning
process's error channel, ending the loop. -/
theorem dispatch_provider_error_handling (send : String → SendResult)
    (db : List User) (uid : String) (u : User) (resp m : String)
    (delErr : String → Option String) (restIds : List String)
    (restTrace : List LoopInput)
    (hu : getUser db uid = some u)
    (hsend : send u.token = ⟨resp, some m⟩) :
    (isInvalidTokenErr m = true →
      notifyUser send none db uid = ⟨resp, none, deleteUser db uid⟩ ∧
      (delErr uid = none →
        notifyBatch send delErr db (uid :: restIds) =
          notifyBatch send delErr (deleteUser db uid) restIds)) ∧
    (isInvalidTokenErr m = false →
      notifyUser send (delErr uid) db uid =
        ⟨"", some (wrapMsg m ("Failed to send notification to user with ID " ++ uid)), db⟩ ∧
      notifyBatch send delErr db (uid :: restIds) =
        (some (wrapMsg (wrapMsg m ("Failed to send notification to user with ID " ++ uid))
          ("Failed to notify user with ID " ++ uid)), db) ∧
      runLoop send delErr (⟨false, .ok (uid :: restIds)⟩ :: restTrace) db =
        ⟨.notifyFailed,
         some (wrapMsg (wrapMsg m ("Failed to send notification to user with ID " ++ uid))
           ("Failed to notify user with ID " ++ uid)), db⟩) := by
  constructor
  · intro hinv
    simp only [isInvalidTokenErr] at hinv
    have hn : notifyUser send none db uid = ⟨resp, none, deleteUser db uid⟩ := by
      simp [notifyUser, hu, hsend, hinv]
    refine ⟨hn, fun hdel => ?_⟩
    have hn2 : notifyUser send (delErr uid) db uid = ⟨resp, none, deleteUser db uid⟩ := by
      simp [notifyUser, hu, hsend, hinv, hdel]
    simp [notifyBatch, hn2]
  · intro hinv
    simp only [isInvalidTokenErr] at hinv
    have hn : notifyUser send (delErr uid) db uid =
        ⟨"", some (wrapMsg m ("Failed to send notification to user with ID " ++ uid)), db⟩ := by
      simp [notifyUser, hu, hsend, hinv]
    have hb : notifyBatch send delErr db (uid :: restIds) =
        (some (wrapMsg (wrapMsg m ("Failed to send notification to user with ID " ++ uid))
          ("Failed to notify user with ID " ++ uid)), db) := by
      simp [notifyBatch, hn]
    exact ⟨hn, hb, by simp [runLoop, hb]⟩

/-- A user table holding one registration, for dispatch witnesses. -/
def demoDb : List User := [⟨"u1", "tok1"⟩]

/-- A provider oracle that reports every token as not found (a 404 error). -/
def send404 : String → SendResult := fun _ => ⟨"", some "http error 404: not found"⟩

/-- A provider oracle that fails every send with an unrelated error. -/
def send500 : String → SendResult := fun _ => ⟨"", some "internal provider failure"⟩

/-- A provider oracle that rejects every token as forbidden (a 403 error). -/
def send403 : String → SendResult := fun _ => ⟨"", some "status 403 forbidden"⟩

/-- Witness for C4 at concrete inputs: a 404 provider error against the one
registered user deletes that user and surfaces no error. -/
theorem dispatch_provider_error_handling_witness :
    notifyUser send404 none demoDb "u1" = ⟨"", none, deleteUser demoDb "u1"⟩ ∧
    (notifyBatch send404 (fun _ => none) demoDb ["u1"] =
      notifyBatch send404 (fun _ => none) (deleteUser demoDb "u1") []) :=
  ((dispatch_provider_error_handling send404 demoDb "u1" ⟨"u1", "tok1"⟩ ""
      "http error 404: not found" (fun _ => none) [] [] (by decide) rfl).1
    (by decide)).imp id (fun h => h rfl)

/-- C5: an identity with no User row in storage is silently skipped — the
dispatch step returns success with no error, leaves the table untouched, its
outcome does not depend on the provider or delete oracles at all (so no push
is sent), and the batch simply proceeds to the remaining identities. -/
theorem dispatch_skips_unregistered (send send2 : String → SendResult)
    (d d2 : Option String) (delErr : String → Option String)
    (db : List User) (uid : String) (restIds : List String)
    (hu : getUser db uid = none) :
    notifyUser send d db uid = ⟨"", none, db⟩ ∧
    notifyUser send d db uid = notifyUser send2 d2 db uid ∧
    notifyBatch send delErr db (uid :: restIds) = notifyBatch send delErr db restIds := by
  refine ⟨by simp [notifyUser, hu], by simp [notifyUser, hu], ?_⟩
  simp [notifyBatch, notifyUser, hu]

/-- Witness for C5: an identity absent from the singleton table is skipped. -/
theorem dispatch_skips_unregistered_witness :
    notifyUser send404 none demoDb "ghost" = ⟨"", none, demoDb⟩ ∧
    notifyUser send404 none demoDb "ghost" = notifyUser send500 (some "x") demoDb "ghost" ∧
    notifyBatch send404 (fun _ => none) demoDb ["ghost"] =
      notifyBatch send404 (fun _ => none) demoDb [] :=
  dispatch_skips_unregistered send404 send500 none (some "x") (fun _ => none)
    demoDb "ghost" [] (by decide)

/-- C6: with a valid signed request, UnregisterToken and UnregisterTrackedID
are idempotent deletes — the first call succeeds, a second identical call on
the resulting state succeeds and changes nothing; and unregistering an entity
absent from storage succeeds and leaves the storage unchanged. -/
theorem unregister_idempotent (env : CryptoEnv) (now : Int)
    (m3 : UnregisterTokenRequest) (m4 : TrackedIntermediaryIdRequest)
    (s : Storage) (pub3 pub4 : String)
    (hf3 : ¬ now - m3.requestTimestamp > fiveSecondsNs)
    (hp3 : env.unmarshalPem m3.transmissionRsaPem = some pub3)
    (ht3 : env.verifyToken pub3 m3.token m3.app m3.requestTimestamp
      unregisterTokenTag m3.tokenSignature = true)
    (hf4 : ¬ now - m4.requestTimestamp > fiveSecondsNs)
    (hp4 : env.unmarshalPem m4.transmissionRsaPem = some pub4)
    (ht4 : env.verifyIdentity pub4 m4.trackedIntermediaryID m4.requestTimestamp
      unregisterTrackedIDTag m4.signature = true) :
    (∃ s2, unregisterToken env now m3 s = .ok s2 ∧
      unregisterToken env now m3 s2 = .ok s2) ∧
    (∃ s2, unregisterTrackedID env now m4 s = .ok s2 ∧
      unregisterTrackedID env now m4 s2 = .ok s2) ∧
    ((∀ u ∈ s.users, ¬(u.id = env.fingerprint m3.transmissionRsaPem ∧ u.token = m3.token)) →
      unregisterToken env now m3 s = .ok s) ∧
    ((∀ t ∈ s.trackedIds, ¬(t.iid = m4.trackedIntermediaryID ∧
        t.owner = env.fingerprint m4.transmissionRsaPem)) →
      unregisterTrackedID env now m4 s = .ok s) := by
  refine ⟨?_, ?_, ?_, ?_⟩
  · exact ⟨storageUnregisterToken env s m3.token m3.transmissionRsaPem,
      by simp [unregisterToken, hf3, hp3, ht3],
      by simp [unregisterToken, hf3, hp3, ht3, storageUnregisterToken_idem]⟩
  · exact ⟨storageUnregisterTrackedIDs env s m4.trackedIntermediaryID m4.transmissionRsaPem,
      by simp [unregisterTrackedID, hf4, hp4, ht4],
      by simp [unregisterTrackedID, hf4, hp4, ht4, storageUnregisterTrackedIDs_idem]⟩
  · intro habs
    have hflt : s.users.filter (fun u => !(u.id == env.fingerprint m3.transmissionRsaPem && u.token == m3.token)) = s.users := by
      apply List.filter_eq_self.mpr
      intro u hu
      have h2 := not_and_or.mp (habs u hu)
      simpa using h2
    have hs : storageUnregisterToken env s m3.token m3.transmissionRsaPem = s := by
      unfold storageUnregisterToken
      rw [hflt]
    simp [unregisterToken, hf3, hp3, ht3, hs]
  · intro habs
    have hflt : s.trackedIds.filter (fun t => !(t.iid == m4.trackedIntermediaryID && t.owner == env.fingerprint m4.transmissionRsaPem)) = s.trackedIds := by
      apply List.filter_eq_self.mpr
      intro t htm
      have h2 := not_and_or.mp (habs t htm)
      simpa using h2
    have hs : storageUnregisterTrackedIDs env s m4.trackedIntermediaryID m4.transmissionRsaPem = s := by
      unfold storageUnregisterTrackedIDs
      rw [hflt]
    simp [unregisterTrackedID, hf4, hp4, ht4, hs]

/-- Witness for C6 on the empty storage: both unregistrations succeed twice
and the absent-target cases leave the storage unchanged. -/
theorem unregister_idempotent_witness :
    (∃ s2, unregisterToken sampleEnv 0 sampleUnregTok emptyStorage = .ok s2 ∧
      unregisterToken sampleEnv 0 sampleUnregTok s2 = .ok s2) ∧
    (∃ s2, unregisterTrackedID sampleEnv 0 sampleUnregTid emptyStorage = .ok s2 ∧
      unregisterTrackedID sampleEnv 0 sampleUnregTid s2 = .ok s2) :=
  ⟨(unregister_idempotent sampleEnv 0 sampleUnregTok sampleUnregTid emptyStorage
      "pem" "pem" (by decide) rfl rfl (by decide) rfl rfl).1,
   (unregister_idempotent sampleEnv 0 sampleUnregTok sampleUnregTid emptyStorage
      "pem" "pem" (by decide) rfl rfl (by decide) rfl rfl).2.1⟩

/-- C7: a valid RegisterTrackedID request succeeds and the resulting storage
holds a TrackedIdentity at the epoch quantized from the current wall clock
with the address-space size currently in effect, together with an
EphemeralEpochRecord for it at that same epoch whose expiry was fixed right
then (creation time + epoch duration) — created immediately, not deferred to
a later creator pass. -/
theorem registerTrackedID_immediate_record (env : CryptoEnv) (now : Int)
    (msg : RegisterTrackedIdRequest) (s : Storage) (pk pub : String)
    (hfresh : ¬ now - msg.requestTimestamp > fiveSecondsNs)
    (hpk : env.permHostKey = some pk)
    (hv : env.verifyWithTimestamp pk msg.registrationTimestamp
      msg.transmissionRsaPem msg.transmissionRsaRegistrarSig = true)
    (hpub : env.unmarshalPem msg.transmissionRsaPem = some pub)
    (hid : env.verifyIdentity pub msg.trackedIntermediaryID msg.requestTimestamp
      registerTrackedIDTag msg.signature = true) :
    ∃ s2, registerTrackedID env now msg s = .ok s2 ∧
      (⟨msg.trackedIntermediaryID, env.fingerprint msg.transmissionRsaPem,
        env.quantize now, env.addressSpaceSize⟩ : TrackedIdentity) ∈ s2.trackedIds ∧
      (⟨env.deriveEph msg.trackedIntermediaryID (env.quantize now) env.addressSpaceSize,
        env.fingerprint msg.transmissionRsaPem, env.quantize now,
        now + env.epochDuration⟩ : EphemeralRecord) ∈ s2.ephemerals := by
  refine ⟨storageRegisterTrackedID env now s msg.trackedIntermediaryID
    msg.transmissionRsaPem (env.quantize now) env.addressSpaceSize, ?_, ?_, ?_⟩
  · simp [registerTrackedID, hfresh, hpk, hv, hpub, hid]
  · simp [storageRegisterTrackedID]
  · simp [storageRegisterTrackedID]

/-- Witness for C7 at a concrete valid request, current time 7200ns after
epoch zero in the all-valid environment. -/
theorem registerTrackedID_immediate_record_witness :
    ∃ s2, registerTrackedID sampleEnv 7200 sampleRegTid emptyStorage = .ok s2 ∧
      (⟨sampleRegTid.trackedIntermediaryID, sampleEnv.fingerprint sampleRegTid.transmissionRsaPem,
        sampleEnv.quantize 7200, sampleEnv.addressSpaceSize⟩ : TrackedIdentity) ∈ s2.trackedIds ∧
      (⟨sampleEnv.deriveEph sampleRegTid.trackedIntermediaryID (sampleEnv.quantize 7200) sampleEnv.addressSpaceSize,
        sampleEnv.fingerprint sampleRegTid.transmissionRsaPem, sampleEnv.quantize 7200,
        7200 + sampleEnv.epochDuration⟩ : EphemeralRecord) ∈ s2.ephemerals :=
  registerTrackedID_immediate_record sampleEnv 7200 sampleRegTid emptyStorage
    "pk" "pem" (by decide) rfl rfl rfl rfl

/-- C8: after one deleter pass at time `now`, a record is present exactly
when it was present before and its stored expiry had not passed; the keep
decision reads only the expiry fixed at the record's creation — two records
with the same expiry are treated identically whatever their derived identity,
owner, or epoch fields are, so expiry is never re-derived from epoch
arithmetic. -/
theorem deleter_pass_removes_exactly_expired (now : Int) (s : Storage)
    (e : EphemeralRecord) :
    (e ∈ (deleterPass now s).ephemerals ↔ e ∈ s.ephemerals ∧ ¬ e.expiry < now) ∧
    (deleterPass now s).users = s.users ∧
    (deleterPass now s).trackedIds = s.trackedIds ∧
    (∀ i o ep x i2 o2 ep2, keepsRecord now ⟨i, o, ep, x⟩ = keepsRecord now ⟨i2, o2, ep2, x⟩) := by
  refine ⟨?_, rfl, rfl, fun i o ep x i2 o2 ep2 => rfl⟩
  simp [deleterPass, List.mem_filter, keepsRecord]

/-- C9: the dispatch loop observes the cancellation signal at the top of
every iteration and returns at once when it has fired, whatever the rest of
the trace holds; and a gateway poll failure sends the wrapped error to the
owning process's error channel and ends the loop immediately — the remaining
trace is never consumed and no further batch is processed. -/
theorem loop_kill_and_poll_failure_fatal (send : String → SendResult)
    (delErr : String → Option String) (p : PollResult) (m : String)
    (rest : List LoopInput) (db : List User) :
    runLoop send delErr (⟨true, p⟩ :: rest) db = ⟨.killed, none, db⟩ ∧
    runLoop send delErr (⟨false, .err m⟩ :: rest) db =
      ⟨.pollFailed, some (wrapMsg m "Failed to poll gateway for users to notify"), db⟩ := by
  constructor <;> simp [runLoop]

/-- C10: notifyUser treats a provider failure as an invalid token exactly
when the error message contains "403" or "404" as a substring; in that case a
failing DeleteUser is wrapped and propagated (the auto-unregistration is not
silent on storage failure) while a successful deletion yields no error and
the shrunk table; outside that case no deletion happens at all. -/
theorem invalid_token_classification (send : String → SendResult)
    (db : List User) (uid : String) (u : User) (resp m e : String)
    (hu : getUser db uid = some u)
    (hsend : send u.token = ⟨resp, some m⟩) :
    isInvalidTokenErr m = (strContains m "403" || strContains m "404") ∧
    (isInvalidTokenErr m = true →
      notifyUser send (some e) db uid =
        ⟨"", some (wrapMsg e ("Failed to remove user registration for uid: " ++ uid)), db⟩ ∧
      notifyUser send none db uid = ⟨resp, none, deleteUser db uid⟩) ∧
    (isInvalidTokenErr m = false → ∀ d, notifyUser send d db uid =
      ⟨"", some (wrapMsg m ("Failed to send notification to user with ID " ++ uid)), db⟩) := by
  refine ⟨rfl, ?_, ?_⟩
  · intro hinv
    simp only [isInvalidTokenErr] at hinv
    exact ⟨by simp [notifyUser, hu, hsend, hinv], by simp [notifyUser, hu, hsend, hinv]⟩
  · intro hinv d
    simp only [isInvalidTokenErr] at hinv
    simp [notifyUser, hu, hsend, hinv]

/-- Witness for C10: a 403 provider error with a failing delete propagates
the wrapped storage error. -/
theorem invalid_token_classification_witness :
    notifyUser send403 (some "db down") demoDb "u1" =
      ⟨"", some (wrapMsg "db down" ("Failed to remove user registration for uid: " ++ "u1")), demoDb⟩ ∧
    notifyUser send403 none demoDb "u1" = ⟨"", none, deleteUser demoDb "u1"⟩ :=
  (invalid_token_classification send403 demoDb "u1" ⟨"u1", "tok1"⟩ ""
    "status 403 forbidden" "db down" (by decide) rfl).2.1 (by decide)

end NotifBot
